import Mathlib

/-!
Verification of `src/couchdb/_design/listener_info/validate_doc_update.js`,
a CouchDB document-validation function for documents of type `listener_info`.

The JavaScript function is embedded shallowly: JSON-style values (plus
`undefined` for absent properties) are modelled by `JSValue`, JavaScript
truthiness, `typeof`, property reads and the one loose equality the source
uses are modelled explicitly, and the validator itself is translated
statement by statement.  A run either returns normally (`Outcome.accepted`),
throws one of the two structured rejection objects the source builds
(`Outcome.rejected`), or aborts with a host-language `TypeError`
(`Outcome.jsError`), which can only happen when `userCtx.roles` does not
support `indexOf`.
-/

namespace ListenerInfo

/-- JSON-style JavaScript values as CouchDB hands them to a validation
function, plus `undefined` for absent properties.  Numbers are modelled as
integers: the validator only tests truthiness of the fields and compares the
two timestamps, and `NaN` (which is falsy) can never reach the comparison. -/
inductive JSValue where
  | undefined
  | null
  | bool (b : Bool)
  | num (n : Int)
  | str (s : String)
  | arr (elems : List JSValue)
  | obj (fields : List (String × JSValue))

/-- JavaScript `typeof` for the modelled values. -/
def jsTypeof : JSValue → String
  | .undefined => "undefined"
  | .null => "object"
  | .bool _ => "boolean"
  | .num _ => "number"
  | .str _ => "string"
  | .arr _ => "object"
  | .obj _ => "object"

/-- JavaScript truthiness: `undefined`, `null`, `false`, `0` and `""` are
falsy; every object and array is truthy. -/
def truthy : JSValue → Bool
  | .undefined => false
  | .null => false
  | .bool b => b
  | .num n => n != 0
  | .str s => s != ""
  | .arr _ => true
  | .obj _ => true

mutual

/-- String conversion of one array element during `Array.prototype.join`:
`undefined` and `null` become the empty string, everything else its usual
JavaScript string conversion. -/
def elemToStr : JSValue → String
  | .undefined => ""
  | .null => ""
  | .bool true => "true"
  | .bool false => "false"
  | .num n => toString n
  | .str s => s
  | .arr xs => joinList xs
  | .obj _ => "[object Object]"

/-- JavaScript `Array.prototype.toString`, i.e. the elements joined with
commas. -/
def joinList : List JSValue → String
  | [] => ""
  | [x] => elemToStr x
  | x :: y :: xs => elemToStr x ++ "," ++ joinList (y :: xs)

end

/-- JavaScript loose equality `v == s` for a string literal `s` whose
`ToNumber` image is `NaN` (this is the case for `"listener_info"`, the only
literal the source compares against).  A string compares by equality; an
array or plain object is converted with `ToPrimitive` (its `toString`) and
the resulting string compared; numbers, booleans, `null` and `undefined`
compare via `ToNumber s = NaN` and are therefore never equal. -/
def looseEqNonNumStr (v : JSValue) (s : String) : Bool :=
  match v with
  | .str t => t == s
  | .arr xs => joinList xs == s
  | .obj _ => "[object Object]" == s
  | _ => false

/-- JavaScript property read `base[field]` (equivalently `base.field`):
reading from `undefined` or `null` throws a `TypeError`; reading a missing
property of an object, or a named property of a primitive or array, yields
`undefined` (except `length`, which strings and arrays do carry). -/
def jsGet : JSValue → String → Except String JSValue
  | .undefined, f => .error ("TypeError: cannot read property " ++ f ++ " of undefined")
  | .null, f => .error ("TypeError: cannot read property " ++ f ++ " of null")
  | .bool _, _ => .ok .undefined
  | .num _, _ => .ok .undefined
  | .str s, f => .ok (if f == "length" then .num (s.length : Int) else .undefined)
  | .arr xs, f => .ok (if f == "length" then .num (xs.length : Int) else .undefined)
  | .obj fields, f => .ok ((List.lookup f fields).getD .undefined)

/-- The two structured objects the source throws: `{unauthorized: msg}` and
`{forbidden: msg}`, each carrying a string message. -/
inductive Rejection where
  | unauthorized (msg : String)
  | forbidden (msg : String)
deriving DecidableEq

/-- The message carried by a rejection. -/
def msgOf : Rejection → String
  | .unauthorized m => m
  | .forbidden m => m

/-- Result of one invocation of the validator: normal return, a thrown
structured rejection, or a host-language error (an uncaught `TypeError`). -/
inductive Outcome where
  | accepted
  | rejected (r : Rejection)
  | jsError (msg : String)
deriving DecidableEq

instance (α β : Type) [DecidableEq α] [DecidableEq β] : DecidableEq (Except α β) :=
  fun x y =>
    match x, y with
    | .error a, .error b =>
      if h : a = b then .isTrue (h ▸ rfl) else .isFalse (fun hc => h (Except.error.inj hc))
    | .ok a, .ok b =>
      if h : a = b then .isTrue (h ▸ rfl) else .isFalse (fun hc => h (Except.ok.inj hc))
    | .error _, .ok _ => .isFalse (fun hc => Except.noConfusion hc)
    | .ok _, .error _ => .isFalse (fun hc => Except.noConfusion hc)

/-- Membership test `rs.indexOf(role) >= 0` for an array value:
`Array.prototype.indexOf` uses strict equality, so only an element that is
exactly the string `role` matches. -/
def hasRole (rs : List JSValue) (role : String) : Bool :=
  rs.any (fun v => match v with | .str s => s == role | _ => false)

/-- Whether the first character list is an initial segment of the second. -/
def charsStartWith : List Char → List Char → Bool
  | [], _ => true
  | _ :: _, [] => false
  | p :: ps, c :: cs => p == c && charsStartWith ps cs

/-- Whether the first character list occurs contiguously inside the second. -/
def charsContain : List Char → List Char → Bool
  | pat, [] => pat.isEmpty
  | pat, c :: cs => charsStartWith pat (c :: cs) || charsContain pat cs

/-- Substring test `s.indexOf(pat) >= 0` for `String.prototype.indexOf`. -/
def strContainsSub (s pat : String) : Bool :=
  charsContain pat.data s.data

/-- The source's `user_is` helper (lines 5-7):
`return userCtx.roles.indexOf(role) >= 0;`.  Arrays use `Array.indexOf`
(strict-equality membership), strings use `String.indexOf` (substring
search); on any other `roles` value the expression throws a `TypeError`
(property read on `undefined`/`null`, or calling a missing `indexOf`). -/
def user_is (userCtx : JSValue) (role : String) : Except String Bool :=
  match jsGet userCtx "roles" with
  | .error e => .error e
  | .ok (.arr rs) => .ok (hasRole rs role)
  | .ok (.str s) => .ok (strContainsSub s role)
  | .ok .undefined => .error "TypeError: cannot read property indexOf of undefined"
  | .ok .null => .error "TypeError: cannot read property indexOf of null"
  | .ok _ => .error "TypeError: userCtx.roles.indexOf is not a function"

/-- Core of the source's `required` helper (lines 14-24) once the value
`inside[field]` has been read: falsy value, then wrong `typeof`, each fatal
with its message; otherwise no rejection.  The type check runs only when a
(truthy, i.e. nonempty) expected type string was supplied, mirroring
`if(type && typeof(inside[field]) != type)`. -/
def requiredVal (field type : String) (v : JSValue) : Option Rejection :=
  if !truthy v then
    some (.forbidden ("Must have a `" ++ field ++ "` field."))
  else if type != "" && jsTypeof v != type then
    some (.forbidden ("Wrong type for `" ++ field ++ "` (" ++ jsTypeof v ++ "), should be " ++ type ++ "."))
  else
    none

/-- The source's `required(field, type, inside)` helper: read
`inside[field]` (which can throw a host `TypeError` when `inside` is
`undefined` or `null`), then apply the falsy/type checks. -/
def required (field type : String) (inside : JSValue) : Except String (Option Rejection) :=
  match jsGet inside field with
  | .error e => .error e
  | .ok v => .ok (requiredVal field type v)

/-- The authorization step (lines 9-12):
`if(oldDoc && !user_is('admin')) throw({unauthorized: ...})`.
`user_is` is evaluated only when `oldDoc` is truthy. -/
def authCheck (oldDoc userCtx : JSValue) : Except String (Option Rejection) :=
  if truthy oldDoc then
    match user_is userCtx "admin" with
    | .error e => .error e
    | .ok b =>
      if !b then
        .ok (some (.unauthorized "Only administrators may edit listener_info docs."))
      else
        .ok none
  else
    .ok none

/-- The timestamp-ordering check (lines 29-32):
`if(newDoc[time_created] >= newDoc[time_uploaded]) throw({forbidden: ...})`.
When control reaches this statement both fields have passed
`required(..., number)` and are therefore truthy numbers, so only the
numeric comparison is modelled; the unreachable non-numeric case is marked
as an error so that no theorem can silently rely on it. -/
def timeOrderCheck (newDoc : JSValue) : Except String (Option Rejection) :=
  match jsGet newDoc "time_created", jsGet newDoc "time_uploaded" with
  | .ok (.num a), .ok (.num b) =>
    if a ≥ b then
      .ok (some (.forbidden "Document creation date is after upload date."))
    else
      .ok none
  | _, _ => .error "unreachable: non-numeric timestamp comparison is not modelled"

/-- The last two checks (lines 34-36): `required(data, object)` followed by
`required(callsign, string, newDoc[data])`. -/
def dataChecks (newDoc : JSValue) : Except String (Option Rejection) :=
  match required "data" "object" newDoc with
  | .error e => .error e
  | .ok (some r) => .ok (some r)
  | .ok none =>
    match jsGet newDoc "data" with
    | .error e => .error e
    | .ok dv => required "callsign" "string" dv

/-- The sequence of field checks (lines 26-36), in source order, each one
short-circuiting the rest: `required(time_created, number)`,
`required(time_uploaded, number)`, the timestamp ordering, `required(data,
object)`, and `required(callsign, string, newDoc[data])`. -/
def fieldChecks (newDoc : JSValue) : Except String (Option Rejection) :=
  match required "time_created" "number" newDoc with
  | .error e => .error e
  | .ok (some r) => .ok (some r)
  | .ok none =>
    match required "time_uploaded" "number" newDoc with
    | .error e => .error e
    | .ok (some r) => .ok (some r)
    | .ok none =>
      match timeOrderCheck newDoc with
      | .error e => .error e
      | .ok (some r) => .ok (some r)
      | .ok none => dataChecks newDoc

/-- The whole `validate_doc_update` function: the `type` gate (line 3, a
loose `!=` against `"listener_info"`), the authorization step, then the
field checks.  A thrown rejection object becomes `Outcome.rejected`, a
normal return `Outcome.accepted`, an uncaught `TypeError`
`Outcome.jsError`. -/
def validate (newDoc oldDoc userCtx : JSValue) : Outcome :=
  match jsGet newDoc "type" with
  | .error e => .jsError e
  | .ok tv =>
    if !looseEqNonNumStr tv "listener_info" then
      .accepted
    else
      match authCheck oldDoc userCtx with
      | .error e => .jsError e
      | .ok (some r) => .rejected r
      | .ok none =>
        match fieldChecks newDoc with
        | .error e => .jsError e
        | .ok (some r) => .rejected r
        | .ok none => .accepted

/-- The same function with the one piece of mutable state the source touches
made explicit.  Inside `required`, both throw branches assign the rejection
message to `message`, an undeclared identifier; in non-strict JavaScript this
writes a variable of the enclosing global scope, which outlives the call.
`validateSt` threads that global through the run: it is overwritten (with the
thrown message) exactly when a `required` check throws, and left untouched by
the authorization throw and the timestamp-ordering throw, whose messages are
inline literals. -/
def validateSt (g : Option String) (newDoc oldDoc userCtx : JSValue) :
    Option String × Outcome :=
  match jsGet newDoc "type" with
  | .error e => (g, .jsError e)
  | .ok tv =>
    if !looseEqNonNumStr tv "listener_info" then
      (g, .accepted)
    else
      match authCheck oldDoc userCtx with
      | .error e => (g, .jsError e)
      | .ok (some r) => (g, .rejected r)
      | .ok none =>
        match required "time_created" "number" newDoc with
        | .error e => (g, .jsError e)
        | .ok (some r) => (some (msgOf r), .rejected r)
        | .ok none =>
          match required "time_uploaded" "number" newDoc with
          | .error e => (g, .jsError e)
          | .ok (some r) => (some (msgOf r), .rejected r)
          | .ok none =>
            match timeOrderCheck newDoc with
            | .error e => (g, .jsError e)
            | .ok (some r) => (g, .rejected r)
            | .ok none =>
              match required "data" "object" newDoc with
              | .error e => (g, .jsError e)
              | .ok (some r) => (some (msgOf r), .rejected r)
              | .ok none =>
                match jsGet newDoc "data" with
                | .error e => (g, .jsError e)
                | .ok dv =>
                  match required "callsign" "string" dv with
                  | .error e => (g, .jsError e)
                  | .ok (some r) => (some (msgOf r), .rejected r)
                  | .ok none => (g, .accepted)

/-- The candidate list of field checks in their fixed source order, used to
state that the validator reports the first failing check. -/
def checkList (newDoc : JSValue) : List (Except String (Option Rejection)) :=
  [required "time_created" "number" newDoc,
   required "time_uploaded" "number" newDoc,
   timeOrderCheck newDoc,
   required "data" "object" newDoc,
   match jsGet newDoc "data" with
   | .error e => .error e
   | .ok dv => required "callsign" "string" dv]

/-- First non-passing entry of a list of checks: the first host error or the
first rejection; all checks passing yields no rejection. -/
def firstFailure : List (Except String (Option Rejection)) → Except String (Option Rejection)
  | [] => .ok none
  | c :: cs =>
    match c with
    | .error e => .error e
    | .ok (some r) => .ok (some r)
    | .ok none => firstFailure cs

/-- Conversion of a check result to a run outcome. -/
def outcomeOf : Except String (Option Rejection) → Outcome
  | .error e => .jsError e
  | .ok (some r) => .rejected r
  | .ok none => .accepted

/-- Whether a value lacks an `indexOf` method in JavaScript, so that
`value.indexOf(role)` throws a `TypeError`: property access on `undefined`
or `null` throws, and booleans, numbers and plain objects have no `indexOf`
in their prototype chain. -/
def lacksIndexOf : JSValue → Bool
  | .undefined => true
  | .null => true
  | .bool _ => true
  | .num _ => true
  | .obj _ => true
  | .str _ => false
  | .arr _ => false

/-! Helper lemmas shared by the claim theorems. -/

/-- A rejection produced by `requiredVal` always uses the `forbidden` key. -/
lemma requiredVal_forbidden (f t : String) (v : JSValue) (r : Rejection)
    (h : requiredVal f t v = some r) : ∃ m, r = .forbidden m := by
  unfold requiredVal at h
  split at h
  · exact ⟨_, (Option.some.inj h).symm⟩
  · split at h
    · exact ⟨_, (Option.some.inj h).symm⟩
    · exact absurd h (by simp)

/-- A rejection produced by `required` always uses the `forbidden` key. -/
lemma required_forbidden (f t : String) (i : JSValue) (r : Rejection)
    (h : required f t i = .ok (some r)) : ∃ m, r = .forbidden m := by
  unfold required at h
  cases hg : jsGet i f with
  | error e => rw [hg] at h; exact absurd h (by simp)
  | ok v =>
    rw [hg] at h
    exact requiredVal_forbidden f t v r (by simpa using h)

/-- The `data` check never produces the timestamp-ordering message. -/
lemma requiredVal_data_ne_order (v : JSValue) (r : Rejection)
    (h : requiredVal "data" "object" v = some r) :
    r ≠ .forbidden "Document creation date is after upload date." := by
  cases v <;> unfold requiredVal at h <;> split at h <;> try split at h
  all_goals
    first
      | exact Option.noConfusion h
      | (injection h with h2; subst h2; first | decide | (simp only [jsTypeof]; decide))

/-- The `callsign` check never produces the timestamp-ordering message. -/
lemma requiredVal_callsign_ne_order (v : JSValue) (r : Rejection)
    (h : requiredVal "callsign" "string" v = some r) :
    r ≠ .forbidden "Document creation date is after upload date." := by
  cases v <;> unfold requiredVal at h <;> split at h <;> try split at h
  all_goals
    first
      | exact Option.noConfusion h
      | (injection h with h2; subst h2; first | decide | (simp only [jsTypeof]; decide))

/-- Property reads on an object value never throw and look the field up. -/
lemma jsGet_obj (l : List (String × JSValue)) (f : String) :
    jsGet (.obj l) f = .ok ((List.lookup f l).getD .undefined) := rfl

/-- With a falsy `oldDoc` the authorization step is skipped entirely. -/
lemma authCheck_falsy (o u : JSValue) (h : truthy o = false) :
    authCheck o u = .ok none := by
  unfold authCheck
  rw [h]
  simp

/-- The sequenced field checks compute exactly the first failing entry of
the ordered check list. -/
lemma fieldChecks_eq_firstFailure (n : JSValue) :
    fieldChecks n = firstFailure (checkList n) := by
  cases h1 : required "time_created" "number" n with
  | error e => simp [fieldChecks, checkList, firstFailure, h1]
  | ok o1 =>
    cases o1 with
    | some r => simp [fieldChecks, checkList, firstFailure, h1]
    | none =>
      cases h2 : required "time_uploaded" "number" n with
      | error e => simp [fieldChecks, checkList, firstFailure, h1, h2]
      | ok o2 =>
        cases o2 with
        | some r => simp [fieldChecks, checkList, firstFailure, h1, h2]
        | none =>
          cases h3 : timeOrderCheck n with
          | error e => simp [fieldChecks, checkList, firstFailure, h1, h2, h3]
          | ok o3 =>
            cases o3 with
            | some r => simp [fieldChecks, checkList, firstFailure, h1, h2, h3]
            | none =>
              cases h4 : required "data" "object" n with
              | error e => simp [fieldChecks, dataChecks, checkList, firstFailure, h1, h2, h3, h4]
              | ok o4 =>
                cases o4 with
                | some r => simp [fieldChecks, dataChecks, checkList, firstFailure, h1, h2, h3, h4]
                | none =>
                  cases h5 : jsGet n "data" with
                  | error e => simp [fieldChecks, dataChecks, checkList, firstFailure, h1, h2, h3, h4, h5]
                  | ok dv =>
                    cases h6 : required "callsign" "string" dv with
                    | error e => simp [fieldChecks, dataChecks, checkList, firstFailure, h1, h2, h3, h4, h5, h6]
                    | ok o5 =>
                      cases o5 <;>
                        simp [fieldChecks, dataChecks, checkList, firstFailure, h1, h2, h3, h4, h5, h6]

/-- The stateful run and the pure run agree on the outcome: the global
`message` variable never influences the result. -/
lemma validateSt_snd (g : Option String) (n o u : JSValue) :
    (validateSt g n o u).2 = validate n o u := by
  cases h1 : jsGet n "type" with
  | error e => simp [validateSt, validate, h1]
  | ok tv =>
    cases h2 : looseEqNonNumStr tv "listener_info" with
    | false => simp [validateSt, validate, h1, h2]
    | true =>
      cases h3 : authCheck o u with
      | error e => simp [validateSt, validate, h1, h2, h3]
      | ok a1 =>
        cases a1 with
        | some r => simp [validateSt, validate, h1, h2, h3]
        | none =>
          cases h4 : required "time_created" "number" n with
          | error e => simp [validateSt, validate, fieldChecks, dataChecks, h1, h2, h3, h4]
          | ok o1 =>
            cases o1 with
            | some r => simp [validateSt, validate, fieldChecks, dataChecks, h1, h2, h3, h4]
            | none =>
              cases h5 : required "time_uploaded" "number" n with
              | error e => simp [validateSt, validate, fieldChecks, dataChecks, h1, h2, h3, h4, h5]
              | ok o2 =>
                cases o2 with
                | some r => simp [validateSt, validate, fieldChecks, dataChecks, h1, h2, h3, h4, h5]
                | none =>
                  cases h6 : timeOrderCheck n with
                  | error e => simp [validateSt, validate, fieldChecks, dataChecks, h1, h2, h3, h4, h5, h6]
                  | ok o3 =>
                    cases o3 with
                    | some r => simp [validateSt, validate, fieldChecks, dataChecks, h1, h2, h3, h4, h5, h6]
                    | none =>
                      cases h7 : required "data" "object" n with
                      | error e => simp [validateSt, validate, fieldChecks, dataChecks, h1, h2, h3, h4, h5, h6, h7]
                      | ok o4 =>
                        cases o4 with
                        | some r => simp [validateSt, validate, fieldChecks, dataChecks, h1, h2, h3, h4, h5, h6, h7]
                        | none =>
                          cases h8 : jsGet n "data" with
                          | error e => simp [validateSt, validate, fieldChecks, dataChecks, h1, h2, h3, h4, h5, h6, h7, h8]
                          | ok dv =>
                            cases h9 : required "callsign" "string" dv with
                            | error e => simp [validateSt, validate, fieldChecks, dataChecks, h1, h2, h3, h4, h5, h6, h7, h8, h9]
                            | ok o5 =>
                              cases o5 <;>
                                simp [validateSt, validate, fieldChecks, dataChecks, h1, h2, h3, h4, h5, h6, h7, h8, h9]

/-- When the type gate passes and the authorization step raises nothing,
the run outcome is exactly the outcome of the field checks. -/
lemma validate_eq_fieldChecks (n o u tv : JSValue)
    (ht : jsGet n "type" = .ok tv) (hg : looseEqNonNumStr tv "listener_info" = true)
    (ha : authCheck o u = .ok none) :
    validate n o u = outcomeOf (fieldChecks n) := by
  cases hf : fieldChecks n with
  | error e => simp [validate, outcomeOf, ht, hg, ha, hf]
  | ok o1 => cases o1 <;> simp [validate, outcomeOf, ht, hg, ha, hf]

/-- A value that satisfied the `data` check is an object or an array, so
any property read on it succeeds. -/
lemma data_pass_get (v : JSValue) (h : requiredVal "data" "object" v = none)
    (f : String) : ∃ cv, jsGet v f = .ok cv := by
  cases v <;> simp [requiredVal, truthy, jsTypeof] at h <;> exact ⟨_, rfl⟩

/-- On an object document the data/callsign tail never raises a host error
and never produces the timestamp-ordering message. -/
lemma dataChecks_obj (fields : List (String × JSValue)) :
    ∃ o : Option Rejection, dataChecks (.obj fields) = .ok o ∧
      ∀ r, o = some r →
        r ≠ .forbidden "Document creation date is after upload date." := by
  have hreq : required "data" "object" (.obj fields)
      = .ok (requiredVal "data" "object" ((List.lookup "data" fields).getD .undefined)) := rfl
  cases hd : requiredVal "data" "object" ((List.lookup "data" fields).getD .undefined) with
  | some r =>
    refine ⟨some r, by simp [dataChecks, hreq, hd], ?_⟩
    intro r2 hr2
    cases hr2
    exact requiredVal_data_ne_order _ _ hd
  | none =>
    obtain ⟨cv, hcv⟩ :=
      data_pass_get ((List.lookup "data" fields).getD .undefined) hd "callsign"
    refine ⟨requiredVal "callsign" "string" cv, ?_, ?_⟩
    · simp only [dataChecks, hreq, hd, jsGet_obj]
      simp [required, hcv]
    · intro r2 hr2
      exact requiredVal_callsign_ne_order cv r2 hr2

/-- Inversion of a raised authorization rejection: it carries the fixed
message, `oldDoc` was truthy, and the admin membership test returned
`false` without a host error. -/
lemma authCheck_some (o u : JSValue) (r : Rejection)
    (h : authCheck o u = .ok (some r)) :
    r = .unauthorized "Only administrators may edit listener_info docs." ∧
    truthy o = true ∧ user_is u "admin" = .ok false := by
  unfold authCheck at h
  cases ht : truthy o with
  | false => rw [ht] at h; simp at h
  | true =>
    rw [ht] at h
    simp only [if_true] at h
    cases hu : user_is u "admin" with
    | error e => rw [hu] at h; simp at h
    | ok b =>
      rw [hu] at h
      cases b <;> simp at h
      exact ⟨h.symm, rfl, rfl⟩

/-- A rejection raised by the timestamp-ordering check is the fixed
forbidden message. -/
lemma timeOrderCheck_some (n : JSValue) (r : Rejection)
    (h : timeOrderCheck n = .ok (some r)) :
    r = .forbidden "Document creation date is after upload date." := by
  unfold timeOrderCheck at h
  split at h
  · split at h <;> simp at h
    exact h.symm
  · simp at h

/-- Every rejection produced by the field checks uses the `forbidden` key. -/
lemma fieldChecks_forbidden (n : JSValue) (r : Rejection)
    (h : fieldChecks n = .ok (some r)) : ∃ m, r = .forbidden m := by
  unfold fieldChecks at h
  cases h1 : required "time_created" "number" n with
  | error e => rw [h1] at h; simp at h
  | ok o1 =>
    rw [h1] at h
    cases o1 with
    | some r1 =>
      simp at h
      exact h ▸ required_forbidden _ _ _ _ h1
    | none =>
      simp only at h
      cases h2 : required "time_uploaded" "number" n with
      | error e => rw [h2] at h; simp at h
      | ok o2 =>
        rw [h2] at h
        cases o2 with
        | some r2 =>
          simp at h
          exact h ▸ required_forbidden _ _ _ _ h2
        | none =>
          simp only at h
          cases h3 : timeOrderCheck n with
          | error e => rw [h3] at h; simp at h
          | ok o3 =>
            rw [h3] at h
            cases o3 with
            | some r3 =>
              simp at h
              exact ⟨_, h ▸ timeOrderCheck_some n r3 h3⟩
            | none =>
              simp only at h
              unfold dataChecks at h
              cases h4 : required "data" "object" n with
              | error e => rw [h4] at h; simp at h
              | ok o4 =>
                rw [h4] at h
                cases o4 with
                | some r4 =>
                  simp at h
                  exact h ▸ required_forbidden _ _ _ _ h4
                | none =>
                  simp only at h
                  cases h5 : jsGet n "data" with
                  | error e => rw [h5] at h; simp at h
                  | ok dv =>
                    rw [h5] at h
                    simp only at h
                    exact required_forbidden _ _ _ _ h

/-- Inversion of a rejected run: the rejection came either from the
authorization step or, with authorization silent, from the field checks. -/
lemma validate_rejected_inv (n o u : JSValue) (r : Rejection)
    (h : validate n o u = .rejected r) :
    authCheck o u = .ok (some r) ∨
      (authCheck o u = .ok none ∧ fieldChecks n = .ok (some r)) := by
  unfold validate at h
  cases h1 : jsGet n "type" with
  | error e => rw [h1] at h; simp at h
  | ok tv =>
    rw [h1] at h
    simp only at h
    cases h2 : looseEqNonNumStr tv "listener_info" with
    | false => rw [h2] at h; simp at h
    | true =>
      rw [h2] at h
      simp only [Bool.not_true, if_false] at h
      cases h3 : authCheck o u with
      | error e => rw [h3] at h; simp at h
      | ok a1 =>
        rw [h3] at h
        cases a1 with
        | some r0 =>
          simp at h
          exact Or.inl (by rw [h])
        | none =>
          simp only at h
          cases h4 : fieldChecks n with
          | error e => rw [h4] at h; simp at h
          | ok o4 =>
            rw [h4] at h
            cases o4 with
            | some r1 => simp at h; exact Or.inr ⟨rfl, by rw [h]⟩
            | none => simp at h

/-! Claim theorems. -/

/-- C1: for every candidate document whose `type` field is exactly the
string `"listener_info"`, whenever `oldDoc` is present (truthy) and the
requester's role array does not contain `"admin"`, `validate` rejects with
the `unauthorized` rejection carrying exactly the message
"Only administrators may edit listener_info docs.", regardless of the
shape or validity of the remaining fields. -/
theorem claim1_nonadmin_edit_unauthorized
    (fields : List (String × JSValue)) (oldDoc : JSValue)
    (ctx : List (String × JSValue)) (rs : List JSValue)
    (htype : (List.lookup "type" fields).getD .undefined = .str "listener_info")
    (hold : truthy oldDoc = true)
    (hroles : (List.lookup "roles" ctx).getD .undefined = .arr rs)
    (hadmin : hasRole rs "admin" = false) :
    validate (.obj fields) oldDoc (.obj ctx)
      = .rejected (.unauthorized "Only administrators may edit listener_info docs.") := by
  have h1 : jsGet (.obj fields) "type" = .ok (.str "listener_info") := by
    rw [jsGet_obj, htype]
  have h3 : user_is (.obj ctx) "admin" = .ok false := by
    unfold user_is
    rw [jsGet_obj, hroles]
    simp [hadmin]
  have h2 : authCheck oldDoc (.obj ctx)
      = .ok (some (.unauthorized "Only administrators may edit listener_info docs.")) := by
    unfold authCheck
    simp [hold, h3]
  unfold validate
  rw [h1]
  simp [looseEqNonNumStr, h2]

/-- Witness for C1: a non-admin requester editing an existing
listener_info document is rejected as unauthorized. -/
theorem claim1_witness :
    validate (.obj [("type", .str "listener_info")]) (.obj [])
        (.obj [("roles", .arr [.str "user"])])
      = .rejected (.unauthorized "Only administrators may edit listener_info docs.") :=
  claim1_nonadmin_edit_unauthorized [("type", .str "listener_info")] (.obj [])
    [("roles", .arr [.str "user"])] [.str "user"] rfl rfl rfl rfl

/-- C2 counterexample: the type gate is JavaScript loose inequality, so a
document whose `type` field is the array `["listener_info"]` — which is not
exactly the string `"listener_info"` — is not let through: the validator
proceeds to the field checks and rejects it, instead of returning
normally as the claim states. -/
theorem claim2_counterexample :
    jsGet (.obj [("type", .arr [.str "listener_info"])]) "type"
        = .ok (.arr [.str "listener_info"]) ∧
    JSValue.arr [.str "listener_info"] ≠ .str "listener_info" ∧
    validate (.obj [("type", .arr [.str "listener_info"])]) .undefined (.obj [])
      = .rejected (.forbidden "Must have a `time_created` field.") :=
  ⟨rfl, fun h => JSValue.noConfusion h, by decide⟩

/-- C2 amended: for every candidate document whose `type` field is not
loosely equal (JavaScript `==`) to `"listener_info"` — i.e. neither that
exact string nor an array whose string conversion equals it — `validate`
returns normally with no rejection, for every `oldDoc`, requester context,
and shape of the remaining fields. -/
theorem claim2_amended_typegate
    (fields : List (String × JSValue)) (oldDoc userCtx : JSValue)
    (h : looseEqNonNumStr ((List.lookup "type" fields).getD .undefined)
        "listener_info" = false) :
    validate (.obj fields) oldDoc userCtx = .accepted := by
  unfold validate
  rw [jsGet_obj]
  simp [h]

/-- Witness for the amended C2: a document of another type is accepted
even though every other field is missing. -/
theorem claim2_amended_witness :
    looseEqNonNumStr ((List.lookup "type"
          [("type", JSValue.str "other_type")]).getD .undefined)
        "listener_info" = false ∧
    validate (.obj [("type", .str "other_type")]) .null .undefined = .accepted :=
  ⟨by decide, claim2_amended_typegate [("type", .str "other_type")] .null .undefined
    (by decide)⟩

/-- C5: once the type gate passes and the authorization step raises
nothing, the outcome is exactly determined by the first failing entry of
the fixed, ordered check list `time_created`, `time_uploaded`, timestamp
ordering, `data`, `data.callsign`: each check short-circuits all later
ones. -/
theorem claim5_first_failure_order
    (fields : List (String × JSValue)) (oldDoc userCtx : JSValue)
    (htype : (List.lookup "type" fields).getD .undefined = .str "listener_info")
    (hauth : authCheck oldDoc userCtx = .ok none) :
    validate (.obj fields) oldDoc userCtx
      = outcomeOf (firstFailure (checkList (.obj fields))) := by
  have h1 : jsGet (.obj fields) "type" = .ok (.str "listener_info") := by
    rw [jsGet_obj, htype]
  rw [validate_eq_fieldChecks (.obj fields) oldDoc userCtx (.str "listener_info") h1 rfl hauth,
    fieldChecks_eq_firstFailure]

/-- Witness for C5: with `time_created` missing and `data` missing
simultaneously, the reported rejection is that of the first check in the
order. -/
theorem claim5_witness :
    authCheck .undefined (.obj []) = .ok none ∧
    validate (.obj [("type", .str "listener_info")]) .undefined (.obj [])
        = outcomeOf (firstFailure (checkList (.obj [("type", .str "listener_info")]))) ∧
    validate (.obj [("type", .str "listener_info")]) .undefined (.obj [])
        = .rejected (.forbidden "Must have a `time_created` field.") :=
  ⟨by decide,
   claim5_first_failure_order [("type", .str "listener_info")] .undefined (.obj [])
     rfl (by decide),
   by decide⟩

/-- C6: for a listener_info candidate with `oldDoc` absent (falsy, i.e. a
creation), the admin-role check never runs: the outcome equals the
field-check outcome and is identical for every requester context. -/
theorem claim6_creation_ignores_roles
    (fields : List (String × JSValue)) (oldDoc u1 u2 : JSValue)
    (htype : (List.lookup "type" fields).getD .undefined = .str "listener_info")
    (hold : truthy oldDoc = false) :
    validate (.obj fields) oldDoc u1 = validate (.obj fields) oldDoc u2 ∧
    validate (.obj fields) oldDoc u1 = outcomeOf (fieldChecks (.obj fields)) := by
  have h1 : jsGet (.obj fields) "type" = .ok (.str "listener_info") := by
    rw [jsGet_obj, htype]
  have e1 := validate_eq_fieldChecks (.obj fields) oldDoc u1 (.str "listener_info")
    h1 rfl (authCheck_falsy oldDoc u1 hold)
  have e2 := validate_eq_fieldChecks (.obj fields) oldDoc u2 (.str "listener_info")
    h1 rfl (authCheck_falsy oldDoc u2 hold)
  exact ⟨e1.trans e2.symm, e1⟩

/-- Witness for C6: on a creation the outcome is the same with no roles at
all and with an admin role. -/
theorem claim6_witness :
    truthy JSValue.null = false ∧
    validate (.obj [("type", .str "listener_info")]) .null .undefined
        = validate (.obj [("type", .str "listener_info")]) .null
            (.obj [("roles", .arr [.str "admin"])]) ∧
    validate (.obj [("type", .str "listener_info")]) .null .undefined
        = outcomeOf (fieldChecks (.obj [("type", .str "listener_info")])) :=
  ⟨by decide,
   (claim6_creation_ignores_roles [("type", .str "listener_info")] .null .undefined
     (.obj [("roles", .arr [.str "admin"])]) rfl rfl).1,
   (claim6_creation_ignores_roles [("type", .str "listener_info")] .null .undefined
     (.obj [("roles", .arr [.str "admin"])]) rfl rfl).2⟩

/-- C8: the validator is deterministic and stateless.  Even with the one
ambient global it touches (`message`) made explicit and started in
arbitrary states, two invocations on identical `newDoc`, `oldDoc` and
`userCtx` yield identical outcomes; in particular running it a second time
after its own state change yields the same result. -/
theorem claim8_deterministic (g g2 : Option String) (n o u : JSValue) :
    (validateSt g n o u).2 = (validateSt g2 n o u).2 ∧
    (validateSt ((validateSt g n o u).1) n o u).2 = (validateSt g n o u).2 := by
  constructor
  · rw [validateSt_snd, validateSt_snd]
  · rw [validateSt_snd, validateSt_snd]

/-- C3: for a listener_info candidate past the authorization step whose
`time_created` and `time_uploaded` are both present (truthy) and numeric,
the run rejects with the forbidden message
"Document creation date is after upload date." exactly when
`time_created >= time_uploaded`; every accepted write therefore satisfies
the strict inequality `time_created < time_uploaded`. -/
theorem claim3_timestamp_order
    (fields : List (String × JSValue)) (oldDoc userCtx : JSValue) (a b : Int)
    (htype : (List.lookup "type" fields).getD .undefined = .str "listener_info")
    (hauth : authCheck oldDoc userCtx = .ok none)
    (htc : (List.lookup "time_created" fields).getD .undefined = .num a) (ha : a ≠ 0)
    (htu : (List.lookup "time_uploaded" fields).getD .undefined = .num b) (hb : b ≠ 0) :
    (validate (.obj fields) oldDoc userCtx
        = .rejected (.forbidden "Document creation date is after upload date.")
      ↔ a ≥ b) ∧
    (validate (.obj fields) oldDoc userCtx = .accepted → a < b) := by
  have h1 : jsGet (.obj fields) "type" = .ok (.str "listener_info") := by
    rw [jsGet_obj, htype]
  have hV := validate_eq_fieldChecks (.obj fields) oldDoc userCtx
    (.str "listener_info") h1 rfl hauth
  have hrtc : required "time_created" "number" (.obj fields) = .ok none := by
    unfold required
    rw [jsGet_obj, htc]
    simp [requiredVal, truthy, jsTypeof, ha]
  have hrtu : required "time_uploaded" "number" (.obj fields) = .ok none := by
    unfold required
    rw [jsGet_obj, htu]
    simp [requiredVal, truthy, jsTypeof, hb]
  by_cases hab : a ≥ b
  · have hord : timeOrderCheck (.obj fields)
        = .ok (some (.forbidden "Document creation date is after upload date.")) := by
      unfold timeOrderCheck
      rw [jsGet_obj, jsGet_obj, htc, htu]
      simp [hab]
    have hfc : fieldChecks (.obj fields)
        = .ok (some (.forbidden "Document creation date is after upload date.")) := by
      unfold fieldChecks
      rw [hrtc, hrtu, hord]
    rw [hV, hfc]
    constructor
    · simp [outcomeOf, hab]
    · intro hacc
      simp [outcomeOf] at hacc
  · have hab2 : a < b := lt_of_not_ge hab
    have hord : timeOrderCheck (.obj fields) = .ok none := by
      unfold timeOrderCheck
      rw [jsGet_obj, jsGet_obj, htc, htu]
      simp [hab]
    obtain ⟨o, ho, hne⟩ := dataChecks_obj fields
    have hfc : fieldChecks (.obj fields) = dataChecks (.obj fields) := by
      unfold fieldChecks
      rw [hrtc, hrtu, hord]
    rw [hV, hfc, ho]
    cases o with
    | none =>
      constructor
      · simp [outcomeOf, hab]
      · intro _
        exact hab2
    | some r =>
      have hr := hne r rfl
      constructor
      · constructor
        · intro hcon
          simp [outcomeOf] at hcon
          exact absurd hcon hr
        · intro hgeb
          exact absurd hgeb hab
      · intro hacc
        simp [outcomeOf] at hacc

/-- Witness for C3 at `time_created = 200 >= 100 = time_uploaded`: the run
rejects with the ordering message. -/
theorem claim3_witness :
    authCheck .undefined (.obj []) = .ok none ∧
    (validate (.obj [("type", .str "listener_info"), ("time_created", .num 200),
          ("time_uploaded", .num 100), ("data", .obj [("callsign", .str "G0ABC")])])
        .undefined (.obj [])
       = .rejected (.forbidden "Document creation date is after upload date.")
      ↔ (200 : Int) ≥ 100) :=
  ⟨by decide,
   (claim3_timestamp_order
     [("type", .str "listener_info"), ("time_created", .num 200),
      ("time_uploaded", .num 100), ("data", .obj [("callsign", .str "G0ABC")])]
     .undefined (.obj []) 200 100 rfl (by decide) rfl (by decide) rfl (by decide)).1⟩

/-- C4: the `required` helper applied to a field name, a nonempty expected
type tag and an object target rejects with the presence message
"Must have a `field` field." whenever the field's value is falsy (absent,
empty string, zero, null, false — in particular a timestamp equal to 0);
otherwise, if the value's `typeof` differs from the expected tag, it
rejects with "Wrong type for `field` (actual), should be expected.";
otherwise it raises nothing. -/
theorem claim4_required_helper (field type : String)
    (fl : List (String × JSValue)) (htype : type ≠ "") :
    (truthy ((List.lookup field fl).getD .undefined) = false →
      required field type (.obj fl)
        = .ok (some (.forbidden ("Must have a `" ++ field ++ "` field.")))) ∧
    (truthy ((List.lookup field fl).getD .undefined) = true →
      jsTypeof ((List.lookup field fl).getD .undefined) ≠ type →
      required field type (.obj fl)
        = .ok (some (.forbidden ("Wrong type for `" ++ field ++ "` ("
            ++ jsTypeof ((List.lookup field fl).getD .undefined)
            ++ "), should be " ++ type ++ ".")))) ∧
    (truthy ((List.lookup field fl).getD .undefined) = true →
      jsTypeof ((List.lookup field fl).getD .undefined) = type →
      required field type (.obj fl) = .ok none) := by
  have hreq : required field type (.obj fl)
      = .ok (requiredVal field type ((List.lookup field fl).getD .undefined)) := rfl
  refine ⟨fun h0 => ?_, fun h1 h2 => ?_, fun h1 h2 => ?_⟩
  · rw [hreq]
    simp [requiredVal, h0]
  · have hb1 : (type != "") = true := by simpa using htype
    have hb2 : (jsTypeof ((List.lookup field fl).getD .undefined) != type) = true := by
      simpa using h2
    rw [hreq]
    simp [requiredVal, h1, hb1, hb2]
  · have hb2 : (jsTypeof ((List.lookup field fl).getD .undefined) != type) = false := by
      simp [h2]
    rw [hreq]
    simp [requiredVal, h1, hb2]

/-- Witness for C4: a `time_created` of numeric 0 is falsy and is rejected
as a missing field. -/
theorem claim4_witness :
    ("number" : String) ≠ "" ∧
    truthy ((List.lookup "time_created"
        [("time_created", JSValue.num 0)]).getD .undefined) = false ∧
    required "time_created" "number" (.obj [("time_created", .num 0)])
      = .ok (some (.forbidden ("Must have a `" ++ "time_created" ++ "` field."))) :=
  ⟨by decide, by decide,
   (claim4_required_helper "time_created" "number" [("time_created", .num 0)]
     (by decide)).1 (by decide)⟩

/-- C7: every rejection the validator raises is one of the two structured
values (`unauthorized` or `forbidden`, each with a string message); the
`unauthorized` key is used exactly for the non-admin-edit violation, with
its fixed message, and every `forbidden` rejection comes from the field
checks (presence, type or ordering). -/
theorem claim7_rejection_taxonomy (n o u : JSValue) (r : Rejection)
    (h : validate n o u = .rejected r) :
    ((∃ m, r = .unauthorized m) ∨ (∃ m, r = .forbidden m)) ∧
    (∀ m, r = .unauthorized m →
      m = "Only administrators may edit listener_info docs." ∧
      truthy o = true ∧ user_is u "admin" = .ok false) ∧
    (∀ m, r = .forbidden m → fieldChecks n = .ok (some (.forbidden m))) := by
  refine ⟨?_, ?_, ?_⟩
  · cases r with
    | unauthorized m => exact Or.inl ⟨m, rfl⟩
    | forbidden m => exact Or.inr ⟨m, rfl⟩
  · intro m hm
    subst hm
    rcases validate_rejected_inv n o u _ h with hA | ⟨_, hF⟩
    · obtain ⟨hmsg, hto, hui⟩ := authCheck_some o u _ hA
      exact ⟨Rejection.unauthorized.inj hmsg, hto, hui⟩
    · obtain ⟨m0, hm0⟩ := fieldChecks_forbidden n _ hF
      exact Rejection.noConfusion hm0
  · intro m hm
    subst hm
    rcases validate_rejected_inv n o u _ h with hA | ⟨_, hF⟩
    · obtain ⟨hmsg, _, _⟩ := authCheck_some o u _ hA
      exact Rejection.noConfusion hmsg
    · exact hF

/-- Witness for C7: applied to a concrete unauthorized rejection, it yields
the authorization facts of that run. -/
theorem claim7_witness :
    truthy (JSValue.obj []) = true ∧
    user_is (.obj [("roles", .arr [])]) "admin" = .ok false :=
  ((claim7_rejection_taxonomy (.obj [("type", .str "listener_info")]) (.obj [])
      (.obj [("roles", .arr [])])
      (.unauthorized "Only administrators may edit listener_info docs.")
      (by decide)).2.1 _ rfl).2

/-- C9 counterexample: the source assigns the rejection message to the
undeclared identifier `message`; in non-strict JavaScript this writes a
global that outlives the call.  With that global modelled and started
unset, a run that trips a `required` check leaves it set — state outside
the invocation has changed, contradicting the claim that nothing beyond
the rejection signal is mutated. -/
theorem claim9_counterexample :
    (validateSt none (.obj [("type", .str "listener_info")]) .undefined
        (.obj [])).1
      = some "Must have a `time_created` field." ∧
    (none : Option String) ≠ some "Must have a `time_created` field." :=
  ⟨by decide, by decide⟩

/-- C9 amended: the validator has no side effect beyond its outcome except
writing the rejection message to the global variable `message` when a
`required` check throws; the global never influences the outcome (any two
initial states give the same result), and when it does change, it holds
exactly the message of the forbidden rejection that was raised. -/
theorem claim9_amended_message_global (g : Option String) (n o u : JSValue) :
    (validateSt g n o u).2 = validate n o u ∧
    ((validateSt g n o u).1 = g ∨
      ∃ m, (validateSt g n o u).1 = some m ∧
        (validateSt g n o u).2 = .rejected (.forbidden m)) := by
  refine ⟨validateSt_snd g n o u, ?_⟩
  cases h1 : jsGet n "type" with
  | error e => exact Or.inl (by simp [validateSt, h1])
  | ok tv =>
    cases h2 : looseEqNonNumStr tv "listener_info" with
    | false => exact Or.inl (by simp [validateSt, h1, h2])
    | true =>
      cases h3 : authCheck o u with
      | error e => exact Or.inl (by simp [validateSt, h1, h2, h3])
      | ok a1 =>
        cases a1 with
        | some r => exact Or.inl (by simp [validateSt, h1, h2, h3])
        | none =>
          cases h4 : required "time_created" "number" n with
          | error e => exact Or.inl (by simp [validateSt, h1, h2, h3, h4])
          | ok o1 =>
            cases o1 with
            | some r =>
              obtain ⟨m, hm⟩ := required_forbidden _ _ _ _ h4
              subst hm
              exact Or.inr ⟨m, by simp [validateSt, h1, h2, h3, h4, msgOf],
                by simp [validateSt, h1, h2, h3, h4]⟩
            | none =>
              cases h5 : required "time_uploaded" "number" n with
              | error e => exact Or.inl (by simp [validateSt, h1, h2, h3, h4, h5])
              | ok o2 =>
                cases o2 with
                | some r =>
                  obtain ⟨m, hm⟩ := required_forbidden _ _ _ _ h5
                  subst hm
                  exact Or.inr ⟨m, by simp [validateSt, h1, h2, h3, h4, h5, msgOf],
                    by simp [validateSt, h1, h2, h3, h4, h5]⟩
                | none =>
                  cases h6 : timeOrderCheck n with
                  | error e =>
                    exact Or.inl (by simp [validateSt, h1, h2, h3, h4, h5, h6])
                  | ok o3 =>
                    cases o3 with
                    | some r =>
                      exact Or.inl (by simp [validateSt, h1, h2, h3, h4, h5, h6])
                    | none =>
                      cases h7 : required "data" "object" n with
                      | error e =>
                        exact Or.inl (by simp [validateSt, h1, h2, h3, h4, h5, h6, h7])
                      | ok o4 =>
                        cases o4 with
                        | some r =>
                          obtain ⟨m, hm⟩ := required_forbidden _ _ _ _ h7
                          subst hm
                          exact Or.inr
                            ⟨m, by simp [validateSt, h1, h2, h3, h4, h5, h6, h7, msgOf],
                             by simp [validateSt, h1, h2, h3, h4, h5, h6, h7]⟩
                        | none =>
                          cases h8 : jsGet n "data" with
                          | error e =>
                            exact Or.inl
                              (by simp [validateSt, h1, h2, h3, h4, h5, h6, h7, h8])
                          | ok dv =>
                            cases h9 : required "callsign" "string" dv with
                            | error e =>
                              exact Or.inl
                                (by simp [validateSt, h1, h2, h3, h4, h5, h6, h7, h8, h9])
                            | ok o5 =>
                              cases o5 with
                              | some r =>
                                obtain ⟨m, hm⟩ := required_forbidden _ _ _ _ h9
                                subst hm
                                exact Or.inr
                                  ⟨m,
                                   by simp [validateSt, h1, h2, h3, h4, h5, h6, h7, h8,
                                     h9, msgOf],
                                   by simp [validateSt, h1, h2, h3, h4, h5, h6, h7, h8,
                                     h9]⟩
                              | none =>
                                exact Or.inl
                                  (by simp [validateSt, h1, h2, h3, h4, h5, h6, h7, h8,
                                    h9])

/-- Whether a value is a JavaScript array. -/
def isArray : JSValue → Bool
  | .arr _ => true
  | _ => false

/-- C10 counterexample: a `roles` value that is a string — hence not an
array — does not make the run fail with a host-language error: strings have
`indexOf` too (substring search), so the run still raises the structured
`unauthorized` rejection. -/
theorem claim10_counterexample :
    isArray (JSValue.str "user") = false ∧
    validate (.obj [("type", .str "listener_info")]) (.obj [])
        (.obj [("roles", .str "user")])
      = .rejected (.unauthorized "Only administrators may edit listener_info docs.") :=
  ⟨rfl, by decide⟩

/-- C10 amended: the structured-rejection guarantee holds only when
`userCtx.roles` supports `indexOf` — an array (strict-equality membership)
or a string (substring search).  For an edit of a listener_info document
with a `roles` value that lacks `indexOf` (absent, `null`, boolean, number
or plain object), the run aborts with a host-language error instead of a
structured rejection. -/
theorem claim10_amended_indexof
    (fields ctx : List (String × JSValue)) (oldDoc : JSValue)
    (htype : (List.lookup "type" fields).getD .undefined = .str "listener_info")
    (hold : truthy oldDoc = true)
    (hroles : lacksIndexOf ((List.lookup "roles" ctx).getD .undefined) = true) :
    ∃ e, validate (.obj fields) oldDoc (.obj ctx) = .jsError e := by
  have h1 : jsGet (.obj fields) "type" = .ok (.str "listener_info") := by
    rw [jsGet_obj, htype]
  have hui : ∃ e, user_is (.obj ctx) "admin" = .error e := by
    unfold user_is
    rw [jsGet_obj]
    cases hv : (List.lookup "roles" ctx).getD .undefined with
    | undefined => exact ⟨_, rfl⟩
    | null => exact ⟨_, rfl⟩
    | bool b => exact ⟨_, rfl⟩
    | num x => exact ⟨_, rfl⟩
    | obj l => exact ⟨_, rfl⟩
    | str s => rw [hv] at hroles; simp [lacksIndexOf] at hroles
    | arr xs => rw [hv] at hroles; simp [lacksIndexOf] at hroles
  obtain ⟨e, he⟩ := hui
  have hac : authCheck oldDoc (.obj ctx) = .error e := by
    unfold authCheck
    simp [hold, he]
  refine ⟨e, ?_⟩
  unfold validate
  rw [h1]
  simp [looseEqNonNumStr, hac]

/-- Witness for the amended C10: an edit with no `roles` at all aborts with
a host-language error. -/
theorem claim10_amended_witness :
    truthy (JSValue.obj []) = true ∧
    lacksIndexOf ((List.lookup "roles"
        ([] : List (String × JSValue))).getD .undefined) = true ∧
    ∃ e, validate (.obj [("type", .str "listener_info")]) (.obj []) (.obj [])
        = .jsError e :=
  ⟨rfl, rfl,
   claim10_amended_indexof [("type", .str "listener_info")] [] (.obj []) rfl rfl rfl⟩

end ListenerInfo
